import Mathlib

/-!
Verification development for the SA-MP server query service
(`src/api/samp-server.js`).

The JavaScript source is shallowly embedded:
* buffers are lists of byte values (`List Nat`);
* JavaScript strings are lists of characters (`List Char`) where the
  string is manipulated character-wise (ip addresses, query parameters),
  and Lean `String`s where the source only passes literals through
  (template names, player names);
* `NaN`/`undefined` propagation and thrown exceptions are modelled with
  `Option` (a `none` result of a handler models an uncaught throw);
* `Math.random()` is modelled by an injected stream `r : Nat → ℚ` of
  values, consumed in the source's call order;
* Node `Buffer.readUIntXX` throws on an out-of-range offset, which is
  modelled by `Except`; `Buffer.toString(utf8, start, end)` never throws
  and clamps both indices to the buffer length, which is modelled by a
  clamping slice on the byte list (strings decoded from buffers are kept
  as byte lists, so `String.prototype.trim` is modelled byte-wise over
  the ASCII whitespace range actually exercised here).
-/

/-- Whitespace skipped by JavaScript `parseInt` before the digits
(the ASCII part of the WhiteSpace/LineTerminator productions). -/
def isJsSpace (c : Char) : Bool :=
  c = ' ' ∨ c = '\t' ∨ c = '\n' ∨ c = '\r' ∨ c = '\x0b' ∨ c = '\x0c'

/-- Decimal digit value of a character, if any. -/
def digitVal (c : Char) : Option Nat :=
  if '0' ≤ c ∧ c ≤ '9' then some (c.toNat - 48) else none

/-- Hexadecimal digit value of a character, if any. -/
def hexDigitVal (c : Char) : Option Nat :=
  if '0' ≤ c ∧ c ≤ '9' then some (c.toNat - 48)
  else if 'a' ≤ c ∧ c ≤ 'f' then some (c.toNat - 87)
  else if 'A' ≤ c ∧ c ≤ 'F' then some (c.toNat - 55)
  else none

/-- Accumulate leading digits (in base `base`, via `dv`); `none` while no
digit has been seen, mirroring `parseInt` returning `NaN` when the scan
finds no digit at all. -/
def parseDigitsAux (dv : Char → Option Nat) (base : Nat) :
    List Char → Option Nat → Option Nat
  | [], acc => acc
  | c :: rest, acc =>
    match dv c with
    | some d => parseDigitsAux dv base rest (some ((acc.getD 0) * base + d))
    | none => acc

/-- JavaScript `parseInt(s)` (radix unspecified): skip leading
whitespace, optional sign, an optional `0x`/`0X` prefix switching to
base 16, then as many digits as possible; `NaN` (here `none`) when no
digit is found. -/
def jsParseInt (s : List Char) : Option Int :=
  let t := s.dropWhile isJsSpace
  let core : List Char → Option Nat := fun u =>
    match u with
    | '0' :: 'x' :: rest => parseDigitsAux hexDigitVal 16 rest none
    | '0' :: 'X' :: rest => parseDigitsAux hexDigitVal 16 rest none
    | u => parseDigitsAux digitVal 10 u none
  match t with
  | '-' :: rest => (core rest).map (fun n => -(n : Int))
  | '+' :: rest => (core rest).map (fun n => (n : Int))
  | _ => (core t).map (fun n => (n : Int))

/-- JavaScript `parseInt` applied to a possibly-`undefined` string
(`parseInt(undefined)` is `NaN`). -/
def jsParseIntOpt (s : Option (List Char)) : Option Int :=
  match s with
  | some l => jsParseInt l
  | none => none

/-- JavaScript `String.prototype.split('.')`. -/
def splitOnDot : List Char → List (List Char)
  | [] => [[]]
  | c :: rest =>
    if c = '.' then [] :: splitOnDot rest
    else
      match splitOnDot rest with
      | [] => [[c]]
      | p :: ps => (c :: p) :: ps

/-- JavaScript array indexing `l[i]`: `undefined` outside the bounds
(including every negative index). -/
def jsIndex (l : List α) (i : Int) : Option α :=
  if 0 ≤ i then l.get? i.toNat else none

-- ============== Binary buffer primitives (Node `Buffer`) ==============

/-- Errors signalled by the response decoder: the explicit short-buffer
throw at the top of `parseSampResponse`, and the `RangeError` Node's
`readUIntXX` throws when a read would cross the end of the buffer (the
spec's `MalformedResponse`). -/
inductive ParseErr
  | shortResponse
  | rangeErr
deriving Repr, DecidableEq

instance {ε α : Type} [DecidableEq ε] [DecidableEq α] : DecidableEq (Except ε α) :=
  fun x y =>
    match x, y with
    | .ok a, .ok b => if h : a = b then isTrue (by rw [h]) else isFalse (by simp [h])
    | .error a, .error b => if h : a = b then isTrue (by rw [h]) else isFalse (by simp [h])
    | .ok _, .error _ => isFalse (by simp)
    | .error _, .ok _ => isFalse (by simp)

/-- Node `buffer.readUInt8(off)`: throws unless the byte is in range. -/
def readUInt8 (b : List Nat) (off : Nat) : Except ParseErr Nat :=
  if off + 1 ≤ b.length then .ok (b.getD off 0) else .error .rangeErr

/-- Node `buffer.readUInt16LE(off)`. -/
def readUInt16LE (b : List Nat) (off : Nat) : Except ParseErr Nat :=
  if off + 2 ≤ b.length then .ok (b.getD off 0 + 256 * b.getD (off + 1) 0)
  else .error .rangeErr

/-- Node `buffer.readUInt32LE(off)`. -/
def readUInt32LE (b : List Nat) (off : Nat) : Except ParseErr Nat :=
  if off + 4 ≤ b.length then
    .ok (b.getD off 0 + 256 * b.getD (off + 1) 0 + 65536 * b.getD (off + 2) 0
         + 16777216 * b.getD (off + 3) 0)
  else .error .rangeErr

/-- Node `buffer.toString('utf-8', s, e)` never throws: both indices are
clamped to the buffer length (an empty string results when `e ≤ s` after
clamping).  The decoded string is kept as its byte list. -/
def bufSlice (b : List Nat) (s e : Nat) : List Nat := (b.take e).drop s

/-- ASCII whitespace bytes removed by `String.prototype.trim`. -/
def isWsByte (n : Nat) : Bool :=
  n = 9 ∨ n = 10 ∨ n = 11 ∨ n = 12 ∨ n = 13 ∨ n = 32

/-- `String.prototype.trim` over the byte-list model of a string. -/
def trimBytes (l : List Nat) : List Nat :=
  ((l.dropWhile isWsByte).reverse.dropWhile isWsByte).reverse

-- ============== Protocol codec ==============

/-- The record built by `parseSampResponse` (the fields of the returned
object; `queryTime` is a wall-clock timestamp and is outside the model). -/
structure SampRecord where
  online : Bool
  password : Bool
  players : Nat
  maxPlayers : Nat
  hostname : List Nat
  gamemode : List Nat
  language : List Nat
  ip : Option (List Char)
  port : Option Int
  version : String
deriving Repr, DecidableEq, Inhabited

/-- `parseSampResponse(buffer, ip, port)` from the source: a short-buffer
guard, then sequential reads at a running offset — password flag at 4,
players / maxPlayers as 16-bit little-endian at 5 and 7, then three
4-byte little-endian length prefixes each followed by that many string
bytes (hostname, gamemode, language), each string trimmed. -/
def parseSampResponse (b : List Nat) (ip : Option (List Char)) (port : Option Int) :
    Except ParseErr SampRecord :=
  if b.length < 11 then .error .shortResponse else
  (readUInt8 b 4).bind fun pw =>
  (readUInt16LE b 5).bind fun players =>
  (readUInt16LE b 7).bind fun maxPlayers =>
  (readUInt32LE b 9).bind fun hostnameLength =>
  let hostname := bufSlice b 13 (13 + hostnameLength)
  (readUInt32LE b (13 + hostnameLength)).bind fun gamemodeLength =>
  let gamemode := bufSlice b (17 + hostnameLength) (17 + hostnameLength + gamemodeLength)
  (readUInt32LE b (17 + hostnameLength + gamemodeLength)).bind fun languageLength =>
  let language := bufSlice b (21 + hostnameLength + gamemodeLength)
      (21 + hostnameLength + gamemodeLength + languageLength)
  .ok { online := true
        password := pw == 1
        players := players
        maxPlayers := maxPlayers
        hostname := trimBytes hostname
        gamemode := trimBytes gamemode
        language := trimBytes language
        ip := ip
        port := port
        version := "SA-MP 0.3.7" }

/-- Node `buffer.writeUInt8(v, off)` value check: throws unless the
value is an integer in `0..255` (`parseInt` only produces integers, so
only the range and the `NaN` case matter). -/
def writeByteVal (v : Option Int) : Option Nat :=
  match v with
  | some n => if 0 ≤ n ∧ n ≤ 255 then some n.toNat else none
  | none => none

/-- `createSampQueryPacket(ip, port)` from the source: an 11-byte buffer
holding the ASCII magic `"SAMP"`, the four `parseInt`ed parts of
`ip.split('.')` written with `writeUInt8`, the port written with
`writeUInt16LE`, and the query-type byte `0x69` (`'i'`).  A `none` input
(`undefined`) or an out-of-range write models the corresponding throw. -/
def createSampQueryPacket (ip : Option (List Char)) (port : Option Int) :
    Option (List Nat) :=
  match ip with
  | none => none
  | some s =>
    let parts := splitOnDot s
    match writeByteVal (jsParseIntOpt (parts.get? 0)),
          writeByteVal (jsParseIntOpt (parts.get? 1)),
          writeByteVal (jsParseIntOpt (parts.get? 2)),
          writeByteVal (jsParseIntOpt (parts.get? 3)) with
    | some o0, some o1, some o2, some o3 =>
      match port with
      | some p =>
        if 0 ≤ p ∧ p ≤ 65535 then
          some ([83, 65, 77, 80] ++ [o0, o1, o2, o3]
                ++ [p.toNat % 256, p.toNat / 256 % 256] ++ [105])
        else none
      | none => none
    | _, _, _, _ => none

-- ============== Query transport (`queryRealSampServer`) ==============

/-- The single external event that settles one UDP exchange: the 5-second
timer fires first, a datagram arrives first, the socket reports an
asynchronous error first, or the send callback reports a send failure. -/
inductive TransportEvent
  | timeoutFired
  | messageReceived (payload : List Nat)
  | socketError
  | sendFailed
deriving Repr, DecidableEq

/-- The rejection reasons of `queryRealSampServer`: a throw while
building the query packet, the timeout, a parse failure on the received
datagram, a socket `'error'` event, and a send-callback error. -/
inductive QueryErr
  | packetError
  | timeout
  | parseFailed (e : ParseErr)
  | networkError
  | sendError
deriving Repr, DecidableEq

/-- `queryRealSampServer(ip, port)` as a function of the settling
transport event: the packet is built before anything is sent (a throw
there rejects immediately, regardless of the transport), and otherwise
the promise settles according to which event fires first. -/
def queryRealSampServer (ip : Option (List Char)) (port : Option Int)
    (ev : TransportEvent) : Except QueryErr SampRecord :=
  match createSampQueryPacket ip port with
  | none => .error .packetError
  | some _ =>
    match ev with
    | .timeoutFired => .error .timeout
    | .messageReceived m =>
      match parseSampResponse m ip port with
      | .ok rec => .ok rec
      | .error e => .error (.parseFailed e)
    | .socketError => .error .networkError
    | .sendFailed => .error .sendError

/-- How one exchange settles. -/
inductive ExchangeOutcome
  | success (rec : SampRecord)
  | failure (e : QueryErr)
deriving Repr, DecidableEq

/-- The observable actions of one exchange, in order: clearing the
timeout timer, closing the UDP socket, and settling the promise. -/
inductive SocketAction
  | clearTimer
  | closeSocket
  | settle (o : ExchangeOutcome)
deriving Repr, DecidableEq

/-- The fixed exchange timeout of `queryRealSampServer`, in ms. -/
def TIMEOUT_MS : Nat := 5000

/-- The sequence of actions `queryRealSampServer` performs on each exit
path, in source order.  A packet-construction throw happens inside the
promise executor before the timer is armed or anything is sent: the
promise rejects with the socket still open.  On the timer path the code
runs `close(); reject(...)`; on the message path `clearTimeout(); close();`
then resolves or rejects with the parse result; on the socket-error and
send-error paths `clearTimeout(); close(); reject(...)`. -/
def exchangeTrace (ip : Option (List Char)) (port : Option Int)
    (ev : TransportEvent) : List SocketAction :=
  match createSampQueryPacket ip port with
  | none => [.settle (.failure .packetError)]
  | some _ =>
    match ev with
    | .timeoutFired => [.closeSocket, .settle (.failure .timeout)]
    | .messageReceived m =>
      [.clearTimer, .closeSocket,
       match parseSampResponse m ip port with
       | .ok rec => .settle (.success rec)
       | .error e => .settle (.failure (.parseFailed e))]
    | .socketError => [.clearTimer, .closeSocket, .settle (.failure .networkError)]
    | .sendFailed => [.clearTimer, .closeSocket, .settle (.failure .sendError)]

-- ============== Mock generator (`generateRealisticMockData`) ==============

/-- One entry of the fixed `serverTemplates` array. -/
structure Template where
  name : String
  gamemode : String
  language : String
  description : String
  tags : List String
  averagePlayers : Int
deriving Repr, DecidableEq, Inhabited

/-- The five fixed server templates of `generateRealisticMockData`. -/
def serverTemplates : List Template :=
  [ { name := "Los Santos Roleplay | LSRP.NET"
      gamemode := "Strict Roleplay v3.1"
      language := "English"
      description := "The largest English SA-MP roleplay server with advanced systems."
      tags := ["Roleplay", "English", "Advanced"]
      averagePlayers := 450 },
    { name := "Next Generation Gaming | NGG-RP"
      gamemode := "NG:RP v5.0"
      language := "English"
      description := "Next Generation Gaming roleplay server with unique features."
      tags := ["Roleplay", "English", "Innovative"]
      averagePlayers := 320 },
    { name := "Cops and Robbers | Classic"
      gamemode := "CNR v2.5"
      language := "English"
      description := "Classic Cops and Robbers gameplay with team-based action."
      tags := ["Action", "Teamplay", "Classic"]
      averagePlayers := 180 },
    { name := "Russian Roleplay | Россия RP"
      gamemode := "Russian Roleplay v4.2"
      language := "Russian"
      description := "Крупнейший русский ролевой сервер SA-MP."
      tags := ["Roleplay", "Russian", "Large"]
      averagePlayers := 280 },
    { name := "Freeroam & Stunts | [FS]"
      gamemode := "Freeroam v1.8"
      language := "English"
      description := "Freeroam with stunts, races and custom vehicles."
      tags := ["Freeroam", "Stunts", "Racing"]
      averagePlayers := 120 } ]

/-- The fixed pool of player names. -/
def playerNames : List String :=
  [ "John_Doe", "Mike_Johnson", "Carl_Johnson", "Franklin_C", "Trevor_P",
    "Lamar_D", "Michael_DS", "Simeon_Y", "Lester_C", "Amanda_DS",
    "Jimmy_DS", "Dave_N", "Steve_H", "Floyd_H", "Andreas_S",
    "Big_Smoke", "Ryder", "Sweet", "Tenpenny", "Woozie" ]

/-- JavaScript `Math.max` on two integers. -/
def jsMax (a b : Int) : Int := if a ≤ b then b else a

/-- JavaScript `Math.min` on two integers. -/
def jsMin (a b : Int) : Int := if a ≤ b then a else b

/-- `Math.floor(q * m)` for a rational `q` and a constant `m`, computed
on the numerator and denominator with floor division (the `Rat`
arithmetic operations are irreducible, so the quantized draws are
unfolded this way; `jsFloorMul_eq_floor` checks the unfolding). -/
def jsFloorMul (q : ℚ) (m : Nat) : Int := Int.fdiv (q.num * m) (q.den : Int)

/-- The comparison `q > 0.8` of the password draw, cross-multiplied onto
the numerator and denominator (`ratGtPointEight_iff` checks it). -/
def ratGtPointEight (q : ℚ) : Bool := decide ((4 : Int) * (q.den : Int) < 5 * q.num)

/-- `ip.split('.').reduce((a, b) => a + parseInt(b), 0)`: `NaN` (`none`)
as soon as one part fails to parse. -/
def sumParts (parts : List (List Char)) : Option Int :=
  parts.foldl
    (fun acc part =>
      match acc, jsParseInt part with
      | some a, some b => some (a + b)
      | _, _ => none)
    (some 0)

/-- The template-selection key `hash = ip.split('.').reduce(...) + port`
of `generateRealisticMockData`; `none` models `NaN` (unparseable part or
`undefined` port) and the `TypeError` of calling `.split` on an
`undefined` ip. -/
def mockHash (ip : Option (List Char)) (port : Option Int) : Option Int :=
  match ip, port with
  | some s, some p => (sumParts (splitOnDot s)).map (· + p)
  | _, _ => none

/-- `templateIndex = hash % serverTemplates.length` (JavaScript `%` is
the truncated remainder, negative for a negative hash). -/
def templateIndexOf (ip : Option (List Char)) (port : Option Int) : Option Int :=
  (mockHash ip port).map (fun h => h.tmod (serverTemplates.length : Int))

/-- One entry of the generated `playersList`. -/
structure MockPlayer where
  id : Int
  name : String
  score : Int
  ping : Int
deriving Repr, DecidableEq, Inhabited

/-- The record built by `generateRealisticMockData` (the `lastRestart`
and `queryTime` fields are wall-clock timestamps and are outside the
model; the `Math.random()` draws they consume come after every draw the
modelled fields consume). -/
structure MockRecord where
  online : Bool
  password : Bool
  players : Int
  maxPlayers : Int
  hostname : String
  gamemode : String
  language : String
  description : String
  mapname : String
  version : String
  website : String
  playersList : List MockPlayer
  ip : Option (List Char)
  port : Option Int
  ping : Int
  tags : List String
deriving Repr, DecidableEq, Inhabited

/-- `generateRealisticMockData(ip, port)` with the `Math.random()` stream
`r` injected (`r k` is the value of the `k`-th call, in source order:
players, ping, then score and ping per generated player, then the
password flag).  `none` models the `TypeError` thrown when the hash is
`NaN` or negative, since `serverTemplates[templateIndex]` is then
`undefined` and `template.averagePlayers` throws. -/
def generateRealisticMockData (ip : Option (List Char)) (port : Option Int)
    (r : Nat → ℚ) : Option MockRecord :=
  match mockHash ip port with
  | none => none
  | some hash =>
    match jsIndex serverTemplates (hash.tmod (serverTemplates.length : Int)) with
    | none => none
    | some template =>
      let basePlayers := template.averagePlayers
      let players : Int := jsMax 10 (jsMin 1000 (basePlayers + jsFloorMul (r 0) 100 - 50))
      let maxPlayers : Int := 1000
      let ping : Int := jsFloorMul (r 1) 150 + 30
      let showPlayers : Int := jsMin players 25
      let playersList : List MockPlayer :=
        (List.range showPlayers.toNat).map (fun (i : Nat) =>
          let nameIdx : Int := (hash + (i : Int)).tmod (playerNames.length : Int)
          let base := (jsIndex playerNames nameIdx).getD "undefined"
          let name := base ++
            (if 0 < i then "_" ++ toString ((hash + (i : Int)).tmod 899 + 100) else "")
          { id := (i : Int) + 1
            name := name
            score := jsFloorMul (r (2 + 2 * i)) 50000
            ping := jsFloorMul (r (3 + 2 * i)) 200 + 20 })
      some { online := true
             password := ratGtPointEight (r (2 + 2 * showPlayers.toNat))
             players := players
             maxPlayers := maxPlayers
             hostname := template.name
             gamemode := template.gamemode
             language := template.language
             description := template.description
             mapname := "San Andreas"
             version := "SA-MP 0.3.7"
             website := "https://example-samp.com"
             playersList := playersList
             ip := ip
             port := port
             ping := ping
             tags := template.tags }

-- ============== Single-target endpoint (`GET /api/samp-server`) ==============

/-- The 400 responses of the single-target endpoint: missing `ip`/`port`
parameters (`MISSING_PARAMS`) and a non-numeric or out-of-range port
(`INVALID_PORT`). -/
inductive ReqError
  | missingParams
  | invalidPort
deriving Repr, DecidableEq

/-- The responses of the single-target endpoint: a 400 validation
rejection, or a 200 payload whose `metadata.source` is `'real'`
(successful live query) or `'mock'` (fallback data). -/
inductive GetResponse
  | badRequest (e : ReqError)
  | okReal (data : SampRecord)
  | okMock (data : MockRecord)
deriving Repr, DecidableEq

/-- The `GET /api/samp-server` handler: query parameters are absent
(`none`) or strings; `!ip || !port` rejects absent and empty values,
`parseInt(port)` plus a range check rejects bad ports, then the live
query runs and, on any rejection, the mock generator supplies the data.
A `none` result models the handler throwing (which the surrounding
Express 4 app does not catch for an async handler): this happens exactly
when the mock generator throws inside the `catch` block. -/
def getSampServer (ip port : Option (List Char)) (ev : TransportEvent)
    (r : Nat → ℚ) : Option GetResponse :=
  match ip, port with
  | some ipS, some portS =>
    if ipS.isEmpty ∨ portS.isEmpty then some (.badRequest .missingParams)
    else
      match jsParseInt portS with
      | none => some (.badRequest .invalidPort)
      | some p =>
        if p < 1 ∨ 65535 < p then some (.badRequest .invalidPort)
        else
          match queryRealSampServer (some ipS) (some p) ev with
          | .ok rec => some (.okReal rec)
          | .error _ => (generateRealisticMockData (some ipS) (some p) r).map .okMock
  | _, _ => some (.badRequest .missingParams)

-- ============== Batch endpoint (`POST /api/samp-servers`) ==============

/-- One element of the posted `servers` array; either field may be
absent (`undefined`).  Ports arrive as JSON numbers. -/
structure BatchItem where
  ip : Option (List Char)
  port : Option Int
deriving Repr, DecidableEq, Inhabited

/-- One element of the batch `results` array: a successful live record,
or mock data tagged with `source: 'mock'`; both echo the queried item. -/
inductive ResultItem
  | real (data : SampRecord) (query : BatchItem)
  | mock (data : MockRecord) (query : BatchItem)
deriving Repr, DecidableEq

/-- The responses of the batch endpoint: 400 for a missing/non-array
`servers` value, 400 for more than 5 entries, or the 200 results list. -/
inductive PostResponse
  | badRequest
  | tooMany
  | ok (results : List ResultItem)
deriving Repr, DecidableEq

/-- The `for (const server of servers)` loop of the batch endpoint,
where element `k` of the list is settled by transport event `evs (i + k)`
and, on fallback, draws its randomness from `rs (i + k)`.  A `none`
result models a throw escaping the loop: the per-element `try` only
covers the live query, so a throw from `generateRealisticMockData`
inside the `catch` block aborts the whole request. -/
def runBatch (servers : List BatchItem) (i : Nat) (evs : Nat → TransportEvent)
    (rs : Nat → Nat → ℚ) : Option (List ResultItem) :=
  match servers with
  | [] => some []
  | s :: rest =>
    match queryRealSampServer s.ip s.port (evs i) with
    | .ok d => (runBatch rest (i + 1) evs rs).map (.real d s :: ·)
    | .error _ =>
      match generateRealisticMockData s.ip s.port (rs i) with
      | some m => (runBatch rest (i + 1) evs rs).map (.mock m s :: ·)
      | none => none

/-- The `POST /api/samp-servers` handler: rejects a missing or non-array
`servers` body (modelled as `none`), rejects more than 5 entries, and
otherwise runs the per-element loop.  No per-element validation of `ip`
or `port` is performed. -/
def postSampServers (servers : Option (List BatchItem)) (evs : Nat → TransportEvent)
    (rs : Nat → Nat → ℚ) : Option PostResponse :=
  match servers with
  | none => some .badRequest
  | some l =>
    if 5 < l.length then some .tooMany
    else (runBatch l 0 evs rs).map .ok

-- ============== Concrete inputs used in the statements ==============

/-- Byte list of an ASCII string (used to state expected field values). -/
def asciiBytes (s : String) : List Nat := s.data.map (fun c => c.toNat)

/-- The canonical dotted-decimal rendering of four octets. -/
def dottedQuad (a b c d : Nat) : List Char :=
  (Nat.repr a).data ++ '.' ::
    ((Nat.repr b).data ++ '.' :: ((Nat.repr c).data ++ '.' :: (Nat.repr d).data))

/-- A well-formed response payload: 4-byte header, password byte 0,
players 42, maxPlayers 100, hostname `" MyServer "`, gamemode `"DM"`,
language `"EN"` (each string with its 4-byte little-endian length). -/
def examplePayload : List Nat :=
  [83, 65, 77, 80, 0, 42, 0, 100, 0]
    ++ [10, 0, 0, 0] ++ asciiBytes " MyServer "
    ++ [2, 0, 0, 0] ++ asciiBytes "DM"
    ++ [2, 0, 0, 0] ++ asciiBytes "EN"

/-- A 21-byte response whose language length prefix (99) reaches far past
the end of the buffer: empty hostname and gamemode, then `99,0,0,0`. -/
def languageOverrunBuf : List Nat :=
  [83, 65, 77, 80, 0, 42, 0, 100, 0] ++ [0, 0, 0, 0] ++ [0, 0, 0, 0] ++ [99, 0, 0, 0]

/-- The mock record for target `1.2.3.4:7777` under a constant-zero
randomness stream (a concrete evaluation of the generator). -/
def mockRecSample : MockRecord :=
  (generateRealisticMockData (some ("1.2.3.4".data)) (some 7777) (fun _ => 0)).getD default

-- ============== Shared lemmas ==============

theorem splitOnDot_ne_nil (l : List Char) : splitOnDot l ≠ [] := by
  cases l with
  | nil => simp [splitOnDot]
  | cons c rest =>
    simp only [splitOnDot]
    split
    · simp
    · split <;> simp

theorem splitOnDot_no_dot (l : List Char) (h : '.' ∉ l) : splitOnDot l = [l] := by
  induction l with
  | nil => rfl
  | cons c rest ih =>
    simp only [List.mem_cons, not_or] at h
    simp only [splitOnDot]
    rw [if_neg (fun hc => h.1 hc.symm), ih h.2]

theorem splitOnDot_append (s t : List Char) (h : '.' ∉ s) :
    splitOnDot (s ++ '.' :: t) = s :: splitOnDot t := by
  induction s with
  | nil => simp [splitOnDot]
  | cons c rest ih =>
    simp only [List.mem_cons, not_or] at h
    simp only [List.cons_append, splitOnDot, List.append_eq]
    rw [if_neg (fun hc => h.1 hc.symm), ih h.2]

set_option maxRecDepth 8000 in
theorem octetRepr :
    ∀ a : Fin 256,
      ('.' ∉ (Nat.repr a.1).data) ∧ jsParseInt (Nat.repr a.1).data = some (a.1 : Int) := by
  decide

theorem octetReprNat (a : Nat) (h : a ≤ 255) :
    ('.' ∉ (Nat.repr a).data) ∧ jsParseInt (Nat.repr a).data = some (a : Int) :=
  octetRepr ⟨a, by omega⟩

theorem splitOnDot_dottedQuad (a b c d : Nat)
    (ha : a ≤ 255) (hb : b ≤ 255) (hc : c ≤ 255) (hd : d ≤ 255) :
    splitOnDot (dottedQuad a b c d)
      = [(Nat.repr a).data, (Nat.repr b).data, (Nat.repr c).data, (Nat.repr d).data] := by
  have h1 := (octetReprNat a ha).1
  have h2 := (octetReprNat b hb).1
  have h3 := (octetReprNat c hc).1
  have h4 := (octetReprNat d hd).1
  unfold dottedQuad
  rw [splitOnDot_append _ _ h1, splitOnDot_append _ _ h2, splitOnDot_append _ _ h3,
    splitOnDot_no_dot _ h4]

-- ============== C7 ==============

/-- C7: a response buffer of fewer than 11 bytes makes `parseSampResponse`
signal the short-response error and return no record. -/
theorem parse_short_response (b : List Nat) (ip : Option (List Char))
    (port : Option Int) (h : b.length < 11) :
    parseSampResponse b ip port = .error .shortResponse := by
  simp [parseSampResponse, if_pos h]

/-- C7 witness: the empty buffer is short and is rejected as such. -/
theorem parse_short_response_witness :
    ([] : List Nat).length < 11 ∧
      parseSampResponse [] (some ("1.2.3.4".data)) (some 7777) = .error .shortResponse :=
  ⟨by decide, parse_short_response [] (some ("1.2.3.4".data)) (some 7777) (by decide)⟩

-- ============== C8 ==============

/-- C8: decoding the well-formed example payload for target
`51.79.247.157:7777` yields the encoded values with each string trimmed —
players 42, maxPlayers 100, hostname `"MyServer"`, gamemode `"DM"`,
language `"EN"`, password `false` — delivered by the single-target
endpoint as a success tagged `source = 'real'`. -/
theorem decode_example_real_record :
    getSampServer (some ("51.79.247.157".data)) (some ("7777".data))
        (.messageReceived examplePayload) (fun _ => 0)
      = some (.okReal
          { online := true
            password := false
            players := 42
            maxPlayers := 100
            hostname := asciiBytes "MyServer"
            gamemode := asciiBytes "DM"
            language := asciiBytes "EN"
            ip := some ("51.79.247.157".data)
            port := some 7777
            version := "SA-MP 0.3.7" }) := by
  decide

-- ============== C3 ==============

/-- C3: for every valid target (four octets `0..255`, port `1..65535`,
address in dotted-decimal form) the query packet is exactly the 11 bytes
`"SAMP"`, the four address octets in order, the port little-endian, and
the information-query byte `0x69`. -/
theorem createSampQueryPacket_layout (a b c d p : Nat)
    (ha : a ≤ 255) (hb : b ≤ 255) (hc : c ≤ 255) (hd : d ≤ 255)
    (hp1 : 1 ≤ p) (hp2 : p ≤ 65535) :
    createSampQueryPacket (some (dottedQuad a b c d)) (some (p : Int))
      = some ([83, 65, 77, 80] ++ [a, b, c, d] ++ [p % 256, p / 256] ++ [105])
    ∧ ([83, 65, 77, 80] ++ [a, b, c, d] ++ [p % 256, p / 256] ++ [105] : List Nat).length
        = 11 := by
  have hsplit := splitOnDot_dottedQuad a b c d ha hb hc hd
  have wa : writeByteVal (jsParseIntOpt (some (Nat.repr a).data)) = some a := by
    simp only [jsParseIntOpt, (octetReprNat a ha).2, writeByteVal]
    rw [if_pos ⟨by omega, by omega⟩]
    simp
  have wb : writeByteVal (jsParseIntOpt (some (Nat.repr b).data)) = some b := by
    simp only [jsParseIntOpt, (octetReprNat b hb).2, writeByteVal]
    rw [if_pos ⟨by omega, by omega⟩]
    simp
  have wc : writeByteVal (jsParseIntOpt (some (Nat.repr c).data)) = some c := by
    simp only [jsParseIntOpt, (octetReprNat c hc).2, writeByteVal]
    rw [if_pos ⟨by omega, by omega⟩]
    simp
  have wd : writeByteVal (jsParseIntOpt (some (Nat.repr d).data)) = some d := by
    simp only [jsParseIntOpt, (octetReprNat d hd).2, writeByteVal]
    rw [if_pos ⟨by omega, by omega⟩]
    simp
  refine ⟨?_, by simp⟩
  simp only [createSampQueryPacket, hsplit, List.get?, wa, wb, wc, wd]
  rw [if_pos ⟨by omega, by omega⟩]
  have hdiv : p / 256 % 256 = p / 256 := Nat.mod_eq_of_lt (by omega)
  simp [hdiv]

/-- C3 witness: the layout at the concrete target `51.79.247.157:7777`. -/
theorem createSampQueryPacket_layout_witness :
    createSampQueryPacket (some (dottedQuad 51 79 247 157)) (some (7777 : Int))
      = some ([83, 65, 77, 80] ++ [51, 79, 247, 157] ++ [7777 % 256, 7777 / 256] ++ [105])
    ∧ ([83, 65, 77, 80] ++ [51, 79, 247, 157] ++ [7777 % 256, 7777 / 256] ++ [105]
        : List Nat).length = 11 :=
  createSampQueryPacket_layout 51 79 247 157 7777 (by decide) (by decide) (by decide)
    (by decide) (by decide) (by decide)

-- ============== C2 ==============

theorem readUInt32LE_ok_bound {b : List Nat} {off v : Nat}
    (h : readUInt32LE b off = .ok v) : off + 4 ≤ b.length := by
  by_cases hc : off + 4 ≤ b.length
  · exact hc
  · simp [readUInt32LE, hc] at h

/-- C2 counterexample: in `languageOverrunBuf` the language length prefix
is 99 with 0 bytes remaining (the read would span `[21, 120)` in a
21-byte buffer), yet `parseSampResponse` returns a record — with the
language silently truncated to the empty string — instead of signalling
an error. -/
theorem parse_language_overrun_returns_record :
    readUInt32LE languageOverrunBuf 17 = .ok 99
    ∧ languageOverrunBuf.length = 21
    ∧ parseSampResponse languageOverrunBuf (some ("1.2.3.4".data)) (some 7777)
        = .ok { online := true
                password := false
                players := 42
                maxPlayers := 100
                hostname := []
                gamemode := []
                language := []
                ip := some ("1.2.3.4".data)
                port := some 7777
                version := "SA-MP 0.3.7" } := by
  refine ⟨by decide, by decide, by decide⟩

/-- C2 amended: a hostname or gamemode length prefix that would read past
the buffer end makes `parseSampResponse` signal the range error (the
spec's `MalformedResponse`), because the next 4-byte length read then
crosses the end of the buffer; but an overlong language length prefix is
not detected — the language string is clamped to the remaining bytes and
a record is returned. -/
theorem parse_length_overrun_amended :
    (∀ (b : List Nat) (ip : Option (List Char)) (port : Option Int) (H : Nat),
      readUInt32LE b 9 = .ok H → b.length < 13 + H →
        parseSampResponse b ip port = .error .rangeErr)
    ∧ (∀ (b : List Nat) (ip : Option (List Char)) (port : Option Int) (H G : Nat),
      readUInt32LE b 9 = .ok H → readUInt32LE b (13 + H) = .ok G →
        b.length < 17 + H + G →
        parseSampResponse b ip port = .error .rangeErr)
    ∧ (∀ (b : List Nat) (ip : Option (List Char)) (port : Option Int) (H G L : Nat),
      readUInt32LE b 9 = .ok H → readUInt32LE b (13 + H) = .ok G →
        readUInt32LE b (17 + H + G) = .ok L → b.length < 21 + H + G + L →
        ∃ rec, parseSampResponse b ip port = .ok rec
          ∧ rec.language = trimBytes (b.drop (21 + H + G))) := by
  refine ⟨?_, ?_, ?_⟩
  · intro b ip port H hH hover
    have hlen : 13 ≤ b.length := by have := readUInt32LE_ok_bound hH; omega
    have h8 : readUInt8 b 4 = .ok (b.getD 4 0) := by
      unfold readUInt8; rw [if_pos (by omega)]
    have h16a : readUInt16LE b 5 = .ok (b.getD 5 0 + 256 * b.getD 6 0) := by
      unfold readUInt16LE; rw [if_pos (by omega)]
    have h16b : readUInt16LE b 7 = .ok (b.getD 7 0 + 256 * b.getD 8 0) := by
      unfold readUInt16LE; rw [if_pos (by omega)]
    have hg : readUInt32LE b (13 + H) = .error .rangeErr := by
      unfold readUInt32LE; rw [if_neg (by omega)]
    simp only [parseSampResponse]
    rw [if_neg (by omega), h8, h16a, h16b, hH]
    simp only [Except.bind, hg]
  · intro b ip port H G hH hG hover
    have hlen : 13 ≤ b.length := by have := readUInt32LE_ok_bound hH; omega
    have h8 : readUInt8 b 4 = .ok (b.getD 4 0) := by
      unfold readUInt8; rw [if_pos (by omega)]
    have h16a : readUInt16LE b 5 = .ok (b.getD 5 0 + 256 * b.getD 6 0) := by
      unfold readUInt16LE; rw [if_pos (by omega)]
    have h16b : readUInt16LE b 7 = .ok (b.getD 7 0 + 256 * b.getD 8 0) := by
      unfold readUInt16LE; rw [if_pos (by omega)]
    have hl : readUInt32LE b (17 + H + G) = .error .rangeErr := by
      unfold readUInt32LE; rw [if_neg (by omega)]
    simp only [parseSampResponse]
    rw [if_neg (by omega), h8, h16a, h16b, hH]
    simp only [Except.bind, hG, hl]
  · intro b ip port H G L hH hG hL hover
    have hlen : 13 ≤ b.length := by have := readUInt32LE_ok_bound hH; omega
    have h8 : readUInt8 b 4 = .ok (b.getD 4 0) := by
      unfold readUInt8; rw [if_pos (by omega)]
    have h16a : readUInt16LE b 5 = .ok (b.getD 5 0 + 256 * b.getD 6 0) := by
      unfold readUInt16LE; rw [if_pos (by omega)]
    have h16b : readUInt16LE b 7 = .ok (b.getD 7 0 + 256 * b.getD 8 0) := by
      unfold readUInt16LE; rw [if_pos (by omega)]
    have hparse : parseSampResponse b ip port = .ok
        { online := true
          password := b.getD 4 0 == 1
          players := b.getD 5 0 + 256 * b.getD 6 0
          maxPlayers := b.getD 7 0 + 256 * b.getD 8 0
          hostname := trimBytes (bufSlice b 13 (13 + H))
          gamemode := trimBytes (bufSlice b (17 + H) (17 + H + G))
          language := trimBytes (bufSlice b (21 + H + G) (21 + H + G + L))
          ip := ip
          port := port
          version := "SA-MP 0.3.7" } := by
      simp only [parseSampResponse]
      rw [if_neg (by omega), h8, h16a, h16b, hH]
      simp only [Except.bind, hG, hL]
    refine ⟨_, hparse, ?_⟩
    show trimBytes (bufSlice b (21 + H + G) (21 + H + G + L)) = _
    have ht : b.take (21 + H + G + L) = b := List.take_of_length_le (by omega)
    rw [bufSlice, ht]

/-- C2 witness: concrete instances of the three cases — a hostname
prefix of 99 in a 13-byte buffer errors, a gamemode prefix of 99 in a
17-byte buffer errors, and a language prefix of 50 in a 21-byte buffer
still produces a record. -/
theorem parse_length_overrun_amended_witness :
    parseSampResponse ([0, 0, 0, 0, 1, 5, 0, 8, 0] ++ [99, 0, 0, 0]) none none
        = .error .rangeErr
    ∧ parseSampResponse ([0, 0, 0, 0, 1, 5, 0, 8, 0] ++ [0, 0, 0, 0] ++ [99, 0, 0, 0])
        none none = .error .rangeErr
    ∧ ∃ rec,
        parseSampResponse
            ([0, 0, 0, 0, 1, 5, 0, 8, 0] ++ [0, 0, 0, 0] ++ [0, 0, 0, 0] ++ [50, 0, 0, 0])
            none none = .ok rec
        ∧ rec.language = trimBytes
            (([0, 0, 0, 0, 1, 5, 0, 8, 0] ++ [0, 0, 0, 0] ++ [0, 0, 0, 0]
              ++ [50, 0, 0, 0] : List Nat).drop 21) :=
  ⟨parse_length_overrun_amended.1 _ none none 99 (by decide) (by decide),
   parse_length_overrun_amended.2.1 _ none none 0 99 (by decide) (by decide) (by decide),
   parse_length_overrun_amended.2.2 _ none none 0 0 50 (by decide) (by decide) (by decide)
     (by decide)⟩

-- ============== C9 ==============

/-- C9 counterexample: when query-packet construction throws (reachable
from the single-target endpoint with an unparseable address, whose
octets the handler never validates), the promise rejects with the UDP
socket already created but never closed — an exit path that reports an
outcome without releasing the channel resource. -/
theorem exchange_leak_counterexample :
    exchangeTrace (some ("abc".data)) (some 7777) .timeoutFired
      = [.settle (.failure .packetError)]
    ∧ SocketAction.closeSocket
        ∉ exchangeTrace (some ("abc".data)) (some 7777) .timeoutFired :=
  ⟨by decide, by decide⟩

/-- C9 amended: on the four event-driven exit paths of an exchange whose
packet was built (datagram received — decoded or not — timeout, socket
error, send error) the socket is closed before the outcome is reported,
and the timeout path reports the timeout failure with the fixed 5000 ms
bound; however on the packet-construction-failure path the promise
rejects without closing the socket (see the counterexample). -/
theorem exchange_release_amended :
    (∀ (ip : Option (List Char)) (port : Option Int) (ev : TransportEvent),
      (createSampQueryPacket ip port).isSome = true →
      ∃ pre o, exchangeTrace ip port ev = pre ++ [.settle o]
        ∧ SocketAction.closeSocket ∈ pre
        ∧ (ev = .timeoutFired → o = .failure .timeout))
    ∧ TIMEOUT_MS = 5000 := by
  refine ⟨?_, rfl⟩
  intro ip port ev hpk
  obtain ⟨pk, hpk⟩ := Option.isSome_iff_exists.mp hpk
  cases ev with
  | timeoutFired =>
    exact ⟨[.closeSocket], .failure .timeout, by simp [exchangeTrace, hpk], by simp,
      fun _ => rfl⟩
  | messageReceived m =>
    cases hp : parseSampResponse m ip port with
    | ok rec =>
      exact ⟨[.clearTimer, .closeSocket], .success rec,
        by simp [exchangeTrace, hpk, hp], by simp, by simp⟩
    | error e =>
      exact ⟨[.clearTimer, .closeSocket], .failure (.parseFailed e),
        by simp [exchangeTrace, hpk, hp], by simp, by simp⟩
  | socketError =>
    exact ⟨[.clearTimer, .closeSocket], .failure .networkError,
      by simp [exchangeTrace, hpk], by simp, by simp⟩
  | sendFailed =>
    exact ⟨[.clearTimer, .closeSocket], .failure .sendError,
      by simp [exchangeTrace, hpk], by simp, by simp⟩

/-- C9 witness: the timeout path at a concrete valid target closes the
socket before reporting the timeout failure. -/
theorem exchange_release_amended_witness :
    (createSampQueryPacket (some ("1.2.3.4".data)) (some 7777)).isSome = true
    ∧ ∃ pre o,
        exchangeTrace (some ("1.2.3.4".data)) (some 7777) .timeoutFired
          = pre ++ [.settle o]
        ∧ SocketAction.closeSocket ∈ pre
        ∧ (TransportEvent.timeoutFired = .timeoutFired → o = .failure .timeout) :=
  ⟨by decide, exchange_release_amended.1 _ _ .timeoutFired (by decide)⟩

-- ============== C5 ==============

/-- C5: every record the mock generator returns has `players` between 10
and 1000, `players ≤ maxPlayers`, a player list of length
`min(players, 25)`, and player ids exactly `1, 2, …` in order. -/
theorem mock_bounds (ip : Option (List Char)) (port : Option Int) (r : Nat → ℚ)
    (rec : MockRecord) (h : generateRealisticMockData ip port r = some rec) :
    10 ≤ rec.players ∧ rec.players ≤ 1000 ∧ rec.players ≤ rec.maxPlayers
    ∧ rec.playersList.length = min rec.players.toNat 25
    ∧ rec.playersList.map (·.id)
        = (List.range (min rec.players.toNat 25)).map (fun (i : Nat) => (i : Int) + 1) := by
  cases hh : mockHash ip port with
  | none =>
    simp only [generateRealisticMockData, hh] at h
    exact Option.noConfusion h
  | some hash =>
    cases ht : jsIndex serverTemplates (hash.tmod (serverTemplates.length : Int)) with
    | none =>
      simp only [generateRealisticMockData, hh, ht] at h
      exact Option.noConfusion h
    | some template =>
      simp only [generateRealisticMockData, hh, ht] at h
      injection h with h
      subst h
      dsimp only
      refine ⟨?_, ?_, ?_, ?_, ?_⟩
      · unfold jsMax jsMin; split_ifs <;> omega
      · unfold jsMax jsMin; split_ifs <;> omega
      · unfold jsMax jsMin; split_ifs <;> omega
      · simp only [List.length_map, List.length_range]
        unfold jsMax jsMin; split_ifs <;> omega
      · rw [List.map_map]
        have hn : (jsMin
              (jsMax 10 (jsMin 1000 (template.averagePlayers + jsFloorMul (r 0) 100 - 50)))
              25).toNat
            = min (jsMax 10
                (jsMin 1000 (template.averagePlayers + jsFloorMul (r 0) 100 - 50))).toNat
                25 := by
          unfold jsMax jsMin; split_ifs <;> omega
        rw [hn]
        rfl

/-- C5 witness: the bounds at the concrete target `1.2.3.4:7777` with a
constant-zero randomness stream. -/
theorem mock_bounds_witness :
    generateRealisticMockData (some ("1.2.3.4".data)) (some 7777) (fun _ => 0)
        = some mockRecSample
    ∧ (10 ≤ mockRecSample.players ∧ mockRecSample.players ≤ 1000
      ∧ mockRecSample.players ≤ mockRecSample.maxPlayers
      ∧ mockRecSample.playersList.length = min mockRecSample.players.toNat 25
      ∧ mockRecSample.playersList.map (·.id)
          = (List.range (min mockRecSample.players.toNat 25)).map
              (fun (i : Nat) => (i : Int) + 1)) :=
  ⟨by decide,
   mock_bounds (some ("1.2.3.4".data)) (some 7777) (fun _ => 0) mockRecSample (by decide)⟩

-- ============== C4 ==============

/-- C4: the mock generator is deterministic in its non-jitter fields —
for any target, any two randomness streams yield the same hostname,
gamemode, language and tags, these fields are exactly those of the
template selected by the key, and for a dotted-quad address the
selection key is the sum of the four octets plus the port, taken
modulo the number of templates (5). -/
theorem mock_nonjitter_deterministic :
    (∀ (ip : Option (List Char)) (port : Option Int) (r1 r2 : Nat → ℚ),
      (generateRealisticMockData ip port r1).map
          (fun m => (m.hostname, m.gamemode, m.language, m.tags))
        = (generateRealisticMockData ip port r2).map
          (fun m => (m.hostname, m.gamemode, m.language, m.tags)))
    ∧ (∀ (ip : Option (List Char)) (port : Option Int) (r : Nat → ℚ),
      (generateRealisticMockData ip port r).map
          (fun m => (m.hostname, m.gamemode, m.language, m.tags))
        = (templateIndexOf ip port).bind (fun idx =>
            (jsIndex serverTemplates idx).map
              (fun t => (t.name, t.gamemode, t.language, t.tags))))
    ∧ (∀ a b c d p : Nat, a ≤ 255 → b ≤ 255 → c ≤ 255 → d ≤ 255 →
        templateIndexOf (some (dottedQuad a b c d)) (some (p : Int))
          = some (((a + b + c + d + p) % 5 : Nat) : Int)) := by
  have key : ∀ (ip : Option (List Char)) (port : Option Int) (r : Nat → ℚ),
      (generateRealisticMockData ip port r).map
          (fun m => (m.hostname, m.gamemode, m.language, m.tags))
        = (templateIndexOf ip port).bind (fun idx =>
            (jsIndex serverTemplates idx).map
              (fun t => (t.name, t.gamemode, t.language, t.tags))) := by
    intro ip port r
    cases hh : mockHash ip port with
    | none => simp [generateRealisticMockData, templateIndexOf, hh]
    | some hash =>
      cases ht : jsIndex serverTemplates (hash.tmod (serverTemplates.length : Int)) with
      | none => simp [generateRealisticMockData, templateIndexOf, hh, ht]
      | some t => simp [generateRealisticMockData, templateIndexOf, hh, ht]
  refine ⟨fun ip port r1 r2 => (key ip port r1).trans (key ip port r2).symm, key, ?_⟩
  intro a b c d p ha hb hc hd
  have hsplit := splitOnDot_dottedQuad a b c d ha hb hc hd
  simp only [templateIndexOf, mockHash, hsplit, sumParts, List.foldl,
    (octetReprNat a ha).2, (octetReprNat b hb).2, (octetReprNat c hc).2,
    (octetReprNat d hd).2, Option.map_some]
  have harith : ((0 + (a : Int) + b + c + d) + p).tmod (serverTemplates.length : Int)
      = (((a + b + c + d + p) % 5 : Nat) : Int) := by
    have h5 : (serverTemplates.length : Int) = 5 := by rfl
    rw [h5, Int.tmod_eq_emod (by positivity) (by norm_num)]
    push_cast
    omega
  show some ((0 + (a : Int) + b + c + d + p).tmod (serverTemplates.length : Int))
      = some (((a + b + c + d + p) % 5 : Nat) : Int)
  rw [harith]

/-- C4 witness: the selection rule at the concrete target
`51.79.247.157:7777`. -/
theorem mock_nonjitter_deterministic_witness :
    templateIndexOf (some (dottedQuad 51 79 247 157)) (some (7777 : Int))
      = some (((51 + 79 + 247 + 157 + 7777) % 5 : Nat) : Int) :=
  mock_nonjitter_deterministic.2.2 51 79 247 157 7777 (by decide) (by decide) (by decide)
    (by decide)

-- ============== C1 ==============

theorem gen_isSome (ip : Option (List Char)) (port : Option Int) (r : Nat → ℚ)
    {hash : Int} (hh : mockHash ip port = some hash) (hpos : 0 ≤ hash) :
    ∃ m, generateRealisticMockData ip port r = some m := by
  have h5 : (serverTemplates.length : Int) = 5 := by rfl
  have hidx : 0 ≤ hash.tmod (serverTemplates.length : Int) :=
    Int.tmod_nonneg _ hpos
  have hlt : hash.tmod (serverTemplates.length : Int) < 5 := by
    rw [← h5]; exact Int.tmod_lt_of_pos _ (by rw [h5]; norm_num)
  have hget : (hash.tmod (serverTemplates.length : Int)).toNat < serverTemplates.length := by
    have : (serverTemplates.length : Nat) = 5 := by rfl
    omega
  obtain ⟨t, ht⟩ := Option.isSome_iff_exists.mp (show (jsIndex serverTemplates
      (hash.tmod (serverTemplates.length : Int))).isSome = true by
    unfold jsIndex
    rw [if_pos hidx, List.get?_eq_get hget]
    rfl)
  exact ⟨_, by simp only [generateRealisticMockData, hh, ht]; rfl⟩

/-- C1 counterexample: for the request `ip=abc&port=7777` the handler
does not reject the malformed address (only the port is validated), the
live query rejects while building the packet, and the mock fallback then
throws (`serverTemplates[NaN]` is `undefined`), so the operation raises
instead of resolving to a record — and the failure is not an
`InvalidTarget` rejection. -/
theorem single_query_unvalidated_address_throws :
    getSampServer (some ("abc".data)) (some ("7777".data)) .timeoutFired (fun _ => 0)
      = none :=
  by decide

/-- C1 amended: a missing, non-numeric or out-of-range port is rejected
as a 400 before any transport activity (the response does not depend on
the transport event or the randomness); the address shape, however, is
never validated — for any address whose dot-separated parts sum to a
parsable, nonnegative key the operation always resolves, to the live
record when the exchange and decode succeed and to a mock record
otherwise, while addresses outside that set make the fallback itself
throw (see the counterexample). -/
theorem single_query_total_amended :
    (∀ (ipS portS : List Char) (ev : TransportEvent) (r : Nat → ℚ),
      ipS.isEmpty = false → portS.isEmpty = false →
      (jsParseInt portS = none
        ∨ ∃ p, jsParseInt portS = some p ∧ (p < 1 ∨ 65535 < p)) →
      getSampServer (some ipS) (some portS) ev r = some (.badRequest .invalidPort))
    ∧ (∀ (ipS portS : List Char) (p hash : Int) (ev : TransportEvent) (r : Nat → ℚ),
      ipS.isEmpty = false → portS.isEmpty = false →
      jsParseInt portS = some p → 1 ≤ p → p ≤ 65535 →
      mockHash (some ipS) (some p) = some hash → 0 ≤ hash →
      ∃ resp, getSampServer (some ipS) (some portS) ev r = some resp
        ∧ ((∃ rec, queryRealSampServer (some ipS) (some p) ev = .ok rec
              ∧ resp = .okReal rec)
          ∨ ((queryRealSampServer (some ipS) (some p) ev).isOk = false
              ∧ ∃ m, generateRealisticMockData (some ipS) (some p) r = some m
              ∧ resp = .okMock m))) := by
  constructor
  · intro ipS portS ev r hip hport hbad
    rcases hbad with hnone | ⟨p, hp, hrange⟩
    · simp [getSampServer, hip, hport, hnone]
    · simp [getSampServer, hip, hport, hp, hrange]
  · intro ipS portS p hash ev r hip hport hp hp1 hp2 hh hpos
    have hnot : ¬(p < 1 ∨ 65535 < p) := by omega
    cases hq : queryRealSampServer (some ipS) (some p) ev with
    | ok rec =>
      refine ⟨.okReal rec, ?_, .inl ⟨rec, rfl, rfl⟩⟩
      simp [getSampServer, hip, hport, hp, hnot, hq]
    | error e =>
      obtain ⟨m, hm⟩ := gen_isSome (some ipS) (some p) r hh hpos
      refine ⟨.okMock m, ?_, .inr ⟨by rfl, m, hm, rfl⟩⟩
      simp [getSampServer, hip, hport, hp, hnot, hq, hm]

/-- C1 witness: `ip=1.2.3.4&port=abc` is rejected as an invalid port for
a concrete transport event, and `ip=1.2.3.4&port=7777` under a timeout
resolves to a mock-tagged record. -/
theorem single_query_total_amended_witness :
    getSampServer (some ("1.2.3.4".data)) (some ("abc".data)) .timeoutFired (fun _ => 0)
      = some (.badRequest .invalidPort)
    ∧ ∃ resp,
        getSampServer (some ("1.2.3.4".data)) (some ("7777".data)) .timeoutFired
            (fun _ => 0) = some resp
        ∧ ((∃ rec, queryRealSampServer (some ("1.2.3.4".data)) (some 7777) .timeoutFired
              = .ok rec ∧ resp = .okReal rec)
          ∨ ((queryRealSampServer (some ("1.2.3.4".data)) (some 7777)
                .timeoutFired).isOk = false
            ∧ ∃ m, generateRealisticMockData (some ("1.2.3.4".data)) (some 7777)
                (fun _ => 0) = some m
            ∧ resp = .okMock m)) :=
  ⟨single_query_total_amended.1 ("1.2.3.4".data) ("abc".data) .timeoutFired (fun _ => 0)
     (by decide) (by decide) (.inl (by decide)),
   single_query_total_amended.2 ("1.2.3.4".data) ("7777".data) 7777 7787 .timeoutFired
     (fun _ => 0) (by decide) (by decide) (by decide) (by decide) (by decide) (by decide)
     (by decide)⟩

-- ============== C6 ==============

theorem runBatch_spec (servers : List BatchItem) (i0 : Nat) (evs : Nat → TransportEvent)
    (rs : Nat → Nat → ℚ)
    (hvalid : ∀ s ∈ servers, ∃ h, mockHash s.ip s.port = some h ∧ 0 ≤ h) :
    ∃ items, runBatch servers i0 evs rs = some items
      ∧ items.length = servers.length
      ∧ ∀ k (hk : k < servers.length),
          ((∃ d, queryRealSampServer (servers.get ⟨k, hk⟩).ip (servers.get ⟨k, hk⟩).port
                (evs (i0 + k)) = .ok d
            ∧ items.get? k = some (.real d (servers.get ⟨k, hk⟩)))
          ∨ ((queryRealSampServer (servers.get ⟨k, hk⟩).ip (servers.get ⟨k, hk⟩).port
                (evs (i0 + k))).isOk = false
            ∧ ∃ m, generateRealisticMockData (servers.get ⟨k, hk⟩).ip
                  (servers.get ⟨k, hk⟩).port (rs (i0 + k)) = some m
              ∧ items.get? k = some (.mock m (servers.get ⟨k, hk⟩)))) := by
  induction servers generalizing i0 with
  | nil => exact ⟨[], rfl, rfl, fun k hk => absurd hk (by simp)⟩
  | cons s rest ih =>
    obtain ⟨items, hrun, hlen, hspec⟩ :=
      ih (i0 + 1) (fun x hx => hvalid x (List.mem_cons_of_mem _ hx))
    cases hq : queryRealSampServer s.ip s.port (evs i0) with
    | ok d =>
      refine ⟨.real d s :: items, ?_, by simp [hlen], ?_⟩
      · simp only [runBatch, hq, hrun]
        rfl
      · intro k hk
        cases k with
        | zero =>
          refine .inl ⟨d, ?_, ?_⟩ <;> simp [hq]
        | succ k2 =>
          have hk2 : k2 < rest.length := by simpa using hk
          have hrec := hspec k2 hk2
          have heq : i0 + 1 + k2 = i0 + (k2 + 1) := by omega
          rw [heq] at hrec
          simpa using hrec
    | error e =>
      obtain ⟨h0, hh0, hpos0⟩ := hvalid s (List.mem_cons_self _ _)
      obtain ⟨m, hm⟩ := gen_isSome s.ip s.port (rs i0) hh0 hpos0
      refine ⟨.mock m s :: items, ?_, by simp [hlen], ?_⟩
      · simp only [runBatch, hq, hm, hrun]
        rfl
      · intro k hk
        cases k with
        | zero =>
          refine .inr ⟨by simp [hq, Except.isOk, Except.toBool], m, ?_, ?_⟩ <;> simp [hm]
        | succ k2 =>
          have hk2 : k2 < rest.length := by simpa using hk
          have hrec := hspec k2 hk2
          have heq : i0 + 1 + k2 = i0 + (k2 + 1) := by omega
          rw [heq] at hrec
          simpa using hrec

/-- C6: for at most 5 targets whose mock key is computable (in
particular every well-formed target), the batch endpoint returns a
results list of exactly the input length, in input order, where element
`k` is the live record when exchange `k` succeeded and the mock record
for target `k` otherwise — each element depending only on its own
target, transport event and randomness (strict isolation). -/
theorem batch_order_isolation (servers : List BatchItem) (evs : Nat → TransportEvent)
    (rs : Nat → Nat → ℚ) (hlen : servers.length ≤ 5)
    (hvalid : ∀ s ∈ servers, ∃ h, mockHash s.ip s.port = some h ∧ 0 ≤ h) :
    ∃ items, postSampServers (some servers) evs rs = some (.ok items)
      ∧ items.length = servers.length
      ∧ ∀ k (hk : k < servers.length),
          ((∃ d, queryRealSampServer (servers.get ⟨k, hk⟩).ip (servers.get ⟨k, hk⟩).port
                (evs k) = .ok d
            ∧ items.get? k = some (.real d (servers.get ⟨k, hk⟩)))
          ∨ ((queryRealSampServer (servers.get ⟨k, hk⟩).ip (servers.get ⟨k, hk⟩).port
                (evs k)).isOk = false
            ∧ ∃ m, generateRealisticMockData (servers.get ⟨k, hk⟩).ip
                  (servers.get ⟨k, hk⟩).port (rs k) = some m
              ∧ items.get? k = some (.mock m (servers.get ⟨k, hk⟩)))) := by
  obtain ⟨items, hrun, hl, hs⟩ := runBatch_spec servers 0 evs rs hvalid
  refine ⟨items, ?_, hl, ?_⟩
  · simp only [postSampServers]
    rw [if_neg (by omega), hrun]
    rfl
  · intro k hk
    have hrec := hs k hk
    simpa using hrec

/-- C6 witness: three valid targets where the second exchange times out
and the others deliver a decodable payload — the batch resolves with
three ordered items, mixing real and mock per element. -/
theorem batch_order_isolation_witness :
    ∃ items,
      postSampServers
          (some [⟨some ("1.1.1.1".data), some 7777⟩, ⟨some ("2.2.2.2".data), some 8888⟩,
            ⟨some ("3.3.3.3".data), some 9999⟩])
          (fun n => if n = 1 then .timeoutFired else .messageReceived examplePayload)
          (fun _ _ => 0)
        = some (.ok items)
      ∧ items.length = 3 :=
  Exists.imp (fun _ h => ⟨h.1, h.2.1⟩)
    (batch_order_isolation
      [⟨some ("1.1.1.1".data), some 7777⟩, ⟨some ("2.2.2.2".data), some 8888⟩,
        ⟨some ("3.3.3.3".data), some 9999⟩]
      (fun n => if n = 1 then .timeoutFired else .messageReceived examplePayload)
      (fun _ _ => 0)
      (by decide)
      (by
        intro s hs
        simp only [List.mem_cons, List.not_mem_nil, or_false] at hs
        rcases hs with rfl | rfl | rfl
        · exact ⟨7781, by decide, by decide⟩
        · exact ⟨8896, by decide, by decide⟩
        · exact ⟨10011, by decide, by decide⟩))

-- ============== C10 ==============

/-- The quantized-draw encoding agrees with the intended
`Math.floor(q * m)`. -/
theorem jsFloorMul_eq_floor (q : ℚ) (m : Nat) : jsFloorMul q m = ⌊q * (m : ℚ)⌋ := by
  have hq : q * (m : ℚ) = ((q.num * (m : Int) : Int) : ℚ) / ((q.den : ℚ)) := by
    conv_lhs => rw [← Rat.num_div_den q]
    push_cast
    ring
  rw [jsFloorMul, Int.fdiv_eq_ediv _ (by positivity), hq, Rat.floor_intCast_div_natCast]

/-- The cross-multiplied password-draw comparison agrees with the
intended `q > 0.8`. -/
theorem ratGtPointEight_iff (q : ℚ) : ratGtPointEight q = true ↔ (0.8 : ℚ) < q := by
  rw [ratGtPointEight, decide_eq_true_iff]
  rw [show (0.8 : ℚ) = 4 / 5 from by norm_num]
  conv_rhs => rw [← Rat.num_div_den q]
  rw [div_lt_div_iff (by norm_num) (by exact_mod_cast q.den_pos : (0 : ℚ) < (q.den : ℚ))]
  constructor
  · intro h
    have h2 : ((4 * q.den : ℤ) : ℚ) < ((5 * q.num : ℤ) : ℚ) := by exact_mod_cast h
    push_cast at h2
    linarith
  · intro h
    have h2 : ((4 * q.den : ℤ) : ℚ) < ((5 * q.num : ℤ) : ℚ) := by push_cast; linarith
    exact_mod_cast h2
